import Mathlib

/-! Shallow embedding of the minivault generation pipeline: the backend
factory with its stub fallback, the stub and remote (Ollama) backends, the
chunked streaming writer, the HTTP handlers, and the JSONL interaction
logger. Each definition mirrors the corresponding Go function. -/

/-- Decimal digit character for a digit value, as produced by integer
formatting. -/
def digitChar (n : Nat) : Char :=
  match n % 10 with
  | 0 => '0'
  | 1 => '1'
  | 2 => '2'
  | 3 => '3'
  | 4 => '4'
  | 5 => '5'
  | 6 => '6'
  | 7 => '7'
  | 8 => '8'
  | _ => '9'

/-- Fuel-driven digit accumulation for decimal rendering. -/
def natDecAux : Nat → Nat → List Char
  | 0, _ => []
  | fuel + 1, n =>
    if n = 0 then [] else natDecAux fuel (n / 10) ++ [digitChar (n % 10)]

/-- Decimal rendering of a natural number, as Go integer formatting emits
into JSON. -/
def natDecimal (n : Nat) : String :=
  if n = 0 then "0" else String.mk (natDecAux n n)

/-- Hexadecimal digit character, lower case, as the Go JSON encoder uses in
control-character escapes. -/
def hexChar (n : Nat) : Char :=
  match n % 16 with
  | 0 => '0'
  | 1 => '1'
  | 2 => '2'
  | 3 => '3'
  | 4 => '4'
  | 5 => '5'
  | 6 => '6'
  | 7 => '7'
  | 8 => '8'
  | 9 => '9'
  | 10 => 'a'
  | 11 => 'b'
  | 12 => 'c'
  | 13 => 'd'
  | 14 => 'e'
  | _ => 'f'

/-- Escape of one character inside a JSON string, following the default Go
JSON encoder: quote, backslash, the short control escapes, HTML-relevant
characters as unicode escapes, remaining control characters as unicode
escapes, and the two line separators U+2028, U+2029. -/
def jsonEscapeChar (c : Char) : List Char :=
  if c = '"' then ['\\', '"']
  else if c = '\\' then ['\\', '\\']
  else if c = '\n' then ['\\', 'n']
  else if c = '\r' then ['\\', 'r']
  else if c = '\t' then ['\\', 't']
  else if c = '<' then ['\\', 'u', '0', '0', '3', 'c']
  else if c = '>' then ['\\', 'u', '0', '0', '3', 'e']
  else if c = '&' then ['\\', 'u', '0', '0', '2', '6']
  else if c.toNat < 32 then
    ['\\', 'u', '0', '0', hexChar (c.toNat / 16), hexChar (c.toNat % 16)]
  else if c.toNat = 8232 then ['\\', 'u', '2', '0', '2', '8']
  else if c.toNat = 8233 then ['\\', 'u', '2', '0', '2', '9']
  else [c]

/-- Escape of a character list inside a JSON string. -/
def jsonEscapeList : List Char → List Char
  | [] => []
  | c :: cs => jsonEscapeChar c ++ jsonEscapeList cs

/-- Escape of a string for inclusion inside a JSON string literal. -/
def jsonEscape (s : String) : String :=
  String.mk (jsonEscapeList s.data)

/-- A quoted JSON string literal. -/
def jsonStr (s : String) : String :=
  "\"" ++ jsonEscape s ++ "\""

/-- JSON boolean literal. -/
def jsonBool (b : Bool) : String :=
  if b then "true" else "false"

/-- A string containing no raw newline character: such a string occupies a
single line of an output file. -/
abbrev NoNL (s : String) : Prop :=
  ∀ c ∈ s.data, c ≠ '\n'

/-- Config holds LLM configuration (from the llm package): type is
"ollama" or "stub", url the base URL, model the model name. -/
structure LLMConfig where
  type : String
  url : String
  model : String

/-- The two backend implementations of the LLM interface. -/
inductive Backend where
  | stub
  | ollama (baseURL model : String)
deriving DecidableEq

/-- NewOllamaLLM: constructs the remote backend, defaulting empty fields. -/
def newOllamaLLM (baseURL model : String) : Backend :=
  Backend.ollama (if baseURL = "" then "http://localhost:11434" else baseURL)
    (if model = "" then "llama2" else model)

/-- NewLLM: validates the configured kind and constructs the backend, or
reports a configuration error. -/
def newLLM (config : LLMConfig) : Except String Backend :=
  if config.type = "ollama" then
    if config.url = "" then Except.error "OLLAMA_HOST is not set"
    else if config.model = "" then Except.error "OLLAMA_MODEL is not set"
    else Except.ok (newOllamaLLM config.url config.model)
  else if config.type = "stub" then Except.ok Backend.stub
  else Except.error ("unsupported LLM type: " ++ config.type)

/-- NewGeneratorService: tries to build the configured backend and falls
back to the stub when construction fails. The url and model parameters
stand for the OLLAMA_HOST and OLLAMA_MODEL environment variables. -/
def newGeneratorService (llmType url model : String) : Backend :=
  match newLLM ⟨llmType, url, model⟩ with
  | Except.ok b => b
  | Except.error _ =>
    match newLLM ⟨"stub", "", ""⟩ with
    | Except.ok b => b
    | Except.error _ => Backend.stub

/-- StubLLM.Generate: fixed template embedding the prompt; never fails. -/
def stubGenerate (prompt : String) : Except String String :=
  Except.ok ("This is a stubbed response to your prompt: " ++ prompt)

/-- The word list StubLLM.GenerateStream iterates over: the fixed template
sentence split into words, with the prompt as the final word. -/
def stubWords (prompt : String) : List String :=
  ["This", "is", "a", "stubbed", "streaming", "response", "to", "your",
   "prompt:", prompt]

/-- The write loop of StubLLM.GenerateStream over an abstract fallible
sink: each word is written followed by a newline; a write error aborts. -/
def stubStreamGo {σ E : Type} (write : σ → String → Except E σ) :
    List String → σ → Except E σ
  | [], s => Except.ok s
  | w :: ws, s =>
    match write s (w ++ "\n") with
    | Except.error e => Except.error e
    | Except.ok s2 => stubStreamGo write ws s2

/-- StubLLM.GenerateStream: the context parameter is received but never
consulted by the loop, exactly as in the source, where it is bound to the
blank identifier. -/
def stubGenerateStream {σ E : Type} (_ctxCancelled : Nat → Bool)
    (prompt : String) (write : σ → String → Except E σ) (s0 : σ) :
    Except E σ :=
  stubStreamGo write (stubWords prompt) s0

/-- A sink that buffers every written fragment and never fails. -/
def bufferWrite (s : List String) (w : String) : Except Unit (List String) :=
  Except.ok (s ++ [w])

/-- The fragment sequence the stub stream emits into a buffering sink under
a given cancellation signal. -/
def stubStreamEmitted (ctx : Nat → Bool) (prompt : String) : List String :=
  match stubGenerateStream ctx prompt bufferWrite [] with
  | Except.ok l => l
  | Except.error _ => []

/-- One item of the line-delimited JSON stream the model server returns:
either a decoded object with its response text and done flag, or a decode
failure carrying the decoder message; end of the list is end-of-stream. -/
inductive StreamItem where
  | obj (response : String) (done : Bool)
  | malformed (msg : String)
deriving DecidableEq

/-- The decode loop of OllamaLLM.GenerateStream: decode the next object
(end of list is io.EOF and breaks), abort on a decode failure, forward the
response field to the sink, and break after a done object. Returns the
forwarded fragments in order and the error, if any. -/
def ollamaStreamLoop : List StreamItem → List String × Option String
  | [] => ([], none)
  | StreamItem.malformed msg :: _ =>
    ([], some ("failed to decode stream: " ++ msg))
  | StreamItem.obj r d :: rest =>
    if d then ([r], none)
    else
      let p := ollamaStreamLoop rest
      (r :: p.1, p.2)

/-- OllamaLLM.Generate after the HTTP exchange: the status code is checked
against 200, then the single response object is decoded and its response
field returned. -/
def ollamaGenerate (status : Nat)
    (decoded : Except String (String × Bool)) : Except String String :=
  if status ≠ 200 then
    Except.error ("unexpected status code: " ++ natDecimal status)
  else
    match decoded with
    | Except.error e => Except.error ("failed to decode response: " ++ e)
    | Except.ok (r, _) => Except.ok r

/-- OllamaLLM.GenerateStream after the HTTP exchange: the status code is
checked against 200 before anything is written, then the decode loop
runs. Returns the forwarded fragments and the error, if any. -/
def ollamaGenerateStream (status : Nat) (items : List StreamItem) :
    List String × Option String :=
  if status ≠ 200 then
    ([], some ("unexpected status code: " ++ natDecimal status))
  else ollamaStreamLoop items

/-- A list of mid-stream objects: each carries a response and done=false. -/
def midObjs (rs : List String) : List StreamItem :=
  rs.map (fun r => StreamItem.obj r false)

/-- Outcome of an HTTP handler: the status class and body it selects. -/
inductive HandleOutcome where
  | badRequest (msg : String)
  | serverError (msg : String)
  | okResponse (response : String)
deriving DecidableEq

/-- Whitespace trimming of a string from both ends, as strings.TrimSpace
performs; used to state the trimming the specification asks for. -/
def trimSpace (s : String) : String :=
  String.mk
    (((s.data.dropWhile Char.isWhitespace).reverse.dropWhile
        Char.isWhitespace).reverse)

/-- BindJSON on the request body with the binding required tag on prompt:
a malformed or missing body fails, and a present but zero-valued (empty)
prompt string also fails the required binding. -/
def bindRequest (body : Option String) : Except String String :=
  match body with
  | none => Except.error "invalid body"
  | some p =>
    if p = "" then Except.error "required field prompt is empty"
    else Except.ok p

/-- Handler.HandleGenerate: bind the body, reject an empty prompt, then
call the backend. Returns the outcome and whether the backend was
invoked. -/
def handleGenerate (body : Option String)
    (backend : String → Except String String) : HandleOutcome × Bool :=
  match bindRequest body with
  | Except.error _ => (HandleOutcome.badRequest "Invalid request format", false)
  | Except.ok p =>
    if p = "" then (HandleOutcome.badRequest "prompt cannot be empty", false)
    else
      match backend p with
      | Except.error _ =>
        (HandleOutcome.serverError "Failed to generate response", true)
      | Except.ok r => (HandleOutcome.okResponse r, true)

/-- The leading bytes of each chunked line, up to and including the opening
quote of the token value. -/
def tokenLinePre : String := "\x7b\"token\":\""

/-- The trailing bytes of each chunked line: closing quote, closing brace,
newline. -/
def tokenLineSuf : String := "\"\x7d\n"

/-- The single line ChunkedWriter.Write emits for one fragment: the JSON
object marshalled by the Go encoder, followed by a newline. -/
def encodeTokenLine (f : String) : String :=
  tokenLinePre ++ jsonEscape f ++ tokenLineSuf

/-- State of a ChunkedWriter: the bytes written to the underlying response
writer and the text accumulated by the observation callback. -/
structure ChunkedState where
  out : String
  observed : String
deriving DecidableEq

/-- ChunkedWriter.Write: the observation callback receives the raw
fragment, then the token object is marshalled, written with a trailing
newline, flushed, and the fragment byte length returned. -/
def chunkedWrite (st : ChunkedState) (p : String) : ChunkedState × Nat :=
  (⟨st.out ++ encodeTokenLine p, st.observed ++ p⟩, p.utf8ByteSize)

/-- Runs a sequence of fragments through a fresh ChunkedWriter. -/
def chunkedRun (frags : List String) : ChunkedState :=
  frags.foldl (fun st p => (chunkedWrite st p).1) ⟨"", ""⟩

/-- Handler.HandleGenerateStream up to its response: bind the body, reject
an empty prompt, then run the streaming backend into a fresh chunked
writer. The streaming backend is modelled by the fragments it forwards and
its error, if any. Returns the outcome, whether the backend was invoked,
and the bytes written to the transport. -/
def handleGenerateStream (body : Option String)
    (streamBackend : String → List String × Option String) :
    HandleOutcome × Bool × String :=
  match bindRequest body with
  | Except.error _ =>
    (HandleOutcome.badRequest "Invalid request format", false, "")
  | Except.ok p =>
    if p = "" then
      (HandleOutcome.badRequest "prompt cannot be empty", false, "")
    else
      let res := streamBackend p
      let st := chunkedRun res.1
      match res.2 with
      | some _ =>
        (HandleOutcome.serverError "Failed to generate response", true, st.out)
      | none => (HandleOutcome.okResponse st.observed, true, st.out)

/-- Value of a hexadecimal digit character, for decoding unicode escapes. -/
def hexVal (c : Char) : Option Nat :=
  if 48 ≤ c.toNat ∧ c.toNat ≤ 57 then some (c.toNat - 48)
  else if 97 ≤ c.toNat ∧ c.toNat ≤ 102 then some (c.toNat - 87)
  else if 65 ≤ c.toNat ∧ c.toNat ≤ 70 then some (c.toNat - 55)
  else none

/-- JSON string-body decoder: reverses the escaping a JSON encoder applies
inside a string literal; fails on a stray quote, bare backslash or bad
escape. -/
def jsonUnescapeList : List Char → Option (List Char)
  | [] => some []
  | '\\' :: 'u' :: a :: b :: c :: d :: rest =>
    match hexVal a, hexVal b, hexVal c, hexVal d with
    | some va, some vb, some vc, some vd =>
      (jsonUnescapeList rest).map
        (fun l => Char.ofNat (va * 4096 + vb * 256 + vc * 16 + vd) :: l)
    | _, _, _, _ => none
  | '\\' :: 'n' :: rest => (jsonUnescapeList rest).map (fun l => '\n' :: l)
  | '\\' :: 'r' :: rest => (jsonUnescapeList rest).map (fun l => '\r' :: l)
  | '\\' :: 't' :: rest => (jsonUnescapeList rest).map (fun l => '\t' :: l)
  | '\\' :: '"' :: rest => (jsonUnescapeList rest).map (fun l => '"' :: l)
  | '\\' :: '\\' :: rest => (jsonUnescapeList rest).map (fun l => '\\' :: l)
  | '\\' :: '/' :: rest => (jsonUnescapeList rest).map (fun l => '/' :: l)
  | '\\' :: _ :: _ => none
  | '"' :: _ => none
  | c :: rest => (jsonUnescapeList rest).map (fun l => c :: l)

/-- Decoder for one output line of the streaming transport: accepts exactly
a token object and yields the token value. -/
def decodeTokenLine (line : String) : Option String :=
  match line.data with
  | '\x7b' :: '"' :: 't' :: 'o' :: 'k' :: 'e' :: 'n' :: '"' :: ':' :: '"' ::
      rest =>
    match rest.reverse with
    | '\x7d' :: '"' :: midRev =>
      (jsonUnescapeList midRev.reverse).map String.mk
    | _ => none
  | _ => none

/-- LogEntry: one structured record per request attempt, with the field set
and order of the Go struct (JSON tags in parentheses in the source). The
timestamp is kept as its serialized string form. -/
structure LogEntry where
  id : String
  timestamp : String
  durationMs : Nat
  prompt : String
  llmType : String
  llmModel : String
  streaming : Bool
  response : String
  tokenCount : Nat
  responseSize : Nat
  success : Bool
  errorMessage : String
  goVersion : String
  goroutines : Nat
  memoryBytes : Nat
deriving DecidableEq

/-- The rune loop of countTokens: space, newline and tab end a word; any
other rune starts a word when not already inside one. -/
def countTokensGo : List Char → Bool → Nat
  | [], _ => 0
  | r :: rest, inWord =>
    if r = ' ' ∨ r = '\n' ∨ r = '\t' then countTokensGo rest false
    else if inWord then countTokensGo rest true
    else 1 + countTokensGo rest true

/-- countTokens: word-based token approximation from the logger. -/
def countTokens (text : String) : Nat :=
  if text = "" then 0 else countTokensGo text.data false

/-- Point-in-time system statistics captured for a record. -/
structure SystemStats where
  goroutines : Nat
  memoryBytes : Nat

/-- The per-record data the logger derives from the clock, the process and
the runtime: request id, timestamp, duration, Go version and stats. -/
structure ReqMeta where
  id : String
  timestamp : String
  durationMs : Nat
  goVersion : String
  stats : SystemStats

/-- LoggingService: the exclusive log file handle and the backend kind
string fixed at construction. The handle is none once released; some true
is an open handle, some false a handle the operating system already
closed. -/
structure LoggingService where
  fileOpen : Option Bool
  llmType : String
deriving DecidableEq

/-- NewLoggingService on the success path: an open append handle and the
configured kind string. -/
def newLoggingService (llmType : String) : LoggingService :=
  ⟨some true, llmType⟩

/-- LoggingService.Close: a nil handle returns nil immediately; otherwise
the file is closed and the handle cleared only when that close reported no
error. The outcome of the operating-system close of an open descriptor is
an environment input osErr: when it fails, the error is returned and the
handle is retained, but the descriptor is marked closed all the same, so a
further close of that handle reports the double-close error, as
os.File.Close does on an already-closed file. -/
def lsClose (s : LoggingService) (osErr : Option String) :
    Except String Unit × LoggingService :=
  match s.fileOpen with
  | none => (Except.ok (), s)
  | some isOpen =>
    if isOpen then
      match osErr with
      | none => (Except.ok (), { s with fileOpen := none })
      | some e => (Except.error e, { s with fileOpen := some false })
    else (Except.error "file already closed", s)

/-- The LogEntry LogInteraction builds: success true, empty error, counts
computed from the response. -/
def logInteractionEntry (s : LoggingService) (m : ReqMeta)
    (prompt response : String) (streaming : Bool) : LogEntry :=
  { id := m.id, timestamp := m.timestamp, durationMs := m.durationMs,
    prompt := prompt, llmType := s.llmType, llmModel := "",
    streaming := streaming, response := response,
    tokenCount := countTokens response,
    responseSize := response.utf8ByteSize, success := true,
    errorMessage := "", goVersion := m.goVersion,
    goroutines := m.stats.goroutines, memoryBytes := m.stats.memoryBytes }

/-- The LogEntry LogError builds: success false, the error message of the
failure, empty response with zero counts. -/
def logErrorEntry (s : LoggingService) (m : ReqMeta)
    (prompt errMsg : String) (streaming : Bool) : LogEntry :=
  { id := m.id, timestamp := m.timestamp, durationMs := m.durationMs,
    prompt := prompt, llmType := s.llmType, llmModel := "",
    streaming := streaming, response := "", tokenCount := 0,
    responseSize := 0, success := false, errorMessage := errMsg,
    goVersion := m.goVersion, goroutines := m.stats.goroutines,
    memoryBytes := m.stats.memoryBytes }

/-- json.Marshal of a LogEntry: the fields in declaration order with their
JSON tags; the error field carries omitempty and is dropped when empty. -/
def marshalLogEntry (e : LogEntry) : String :=
  "\x7b\"id\":" ++ jsonStr e.id ++
  ",\"timestamp\":" ++ jsonStr e.timestamp ++
  ",\"duration_ms\":" ++ natDecimal e.durationMs ++
  ",\"prompt\":" ++ jsonStr e.prompt ++
  ",\"llm_type\":" ++ jsonStr e.llmType ++
  ",\"llm_model\":" ++ jsonStr e.llmModel ++
  ",\"streaming\":" ++ jsonBool e.streaming ++
  ",\"response\":" ++ jsonStr e.response ++
  ",\"token_count\":" ++ natDecimal e.tokenCount ++
  ",\"response_size\":" ++ natDecimal e.responseSize ++
  ",\"success\":" ++ jsonBool e.success ++
  (if e.errorMessage = "" then ""
   else ",\"error\":" ++ jsonStr e.errorMessage) ++
  ",\"go_version\":" ++ jsonStr e.goVersion ++
  ",\"goroutines\":" ++ natDecimal e.goroutines ++
  ",\"memory_bytes\":" ++ natDecimal e.memoryBytes ++ "\x7d"

/-- LogError applied to the log file contents: marshal the error entry and
append it with Fprintln, which adds one trailing newline. -/
def logErrorRun (file : String) (s : LoggingService) (m : ReqMeta)
    (prompt errMsg : String) (streaming : Bool) : String :=
  file ++ marshalLogEntry (logErrorEntry s m prompt errMsg streaming) ++ "\n"

/-- LogInteraction applied to the log file contents. -/
def logInteractionRun (file : String) (s : LoggingService) (m : ReqMeta)
    (prompt response : String) (streaming : Bool) : String :=
  file ++ marshalLogEntry (logInteractionEntry s m prompt response streaming)
    ++ "\n"

/-- The states a LoggingService constructed with kind t can reach: the
fresh service, and the result of any Close call under any outcome of the
operating-system close. LogInteraction and LogError leave the service
state unchanged, so they contribute no further states. -/
inductive LSReachable (t : String) : LoggingService → Prop where
  | init : LSReachable t (newLoggingService t)
  | closeStep {s : LoggingService} (osErr : Option String) :
    LSReachable t s → LSReachable t (lsClose s osErr).2

theorem noNL_append {a b : String} (ha : NoNL a) (hb : NoNL b) :
    NoNL (a ++ b) := by
  intro c hc
  rw [String.data_append] at hc
  rcases List.mem_append.1 hc with h | h
  · exact ha c h
  · exact hb c h

theorem digitChar_ne_nl (n : Nat) : digitChar n ≠ '\n' := by
  unfold digitChar
  split <;> decide

theorem hexChar_ne_nl (n : Nat) : hexChar n ≠ '\n' := by
  unfold hexChar
  split <;> decide

theorem natDecAux_ne_nl : ∀ fuel n, ∀ c ∈ natDecAux fuel n, c ≠ '\n' := by
  intro fuel
  induction fuel with
  | zero => intro n c hc; simp [natDecAux] at hc
  | succ k ih =>
    intro n c hc
    simp only [natDecAux] at hc
    split at hc
    · simp at hc
    · rcases List.mem_append.1 hc with h | h
      · exact ih _ c h
      · rw [List.mem_singleton] at h
        subst h
        exact digitChar_ne_nl _

theorem natDecimal_noNL (n : Nat) : NoNL (natDecimal n) := by
  intro c hc
  unfold natDecimal at hc
  split at hc
  · simp only [show ("0" : String).data = ['0'] from rfl,
      List.mem_singleton] at hc
    subst hc
    decide
  · exact natDecAux_ne_nl n n c hc

theorem jsonEscapeChar_ne_nl (c : Char) : ∀ x ∈ jsonEscapeChar c, x ≠ '\n' := by
  intro x hx
  unfold jsonEscapeChar at hx
  by_cases h1 : c = '"'
  · rw [if_pos h1] at hx
    simp only [List.mem_cons, List.mem_singleton, List.not_mem_nil,
      or_false] at hx
    rcases hx with rfl | rfl <;> decide
  rw [if_neg h1] at hx
  by_cases h2 : c = '\\'
  · rw [if_pos h2] at hx
    simp only [List.mem_cons, List.mem_singleton, List.not_mem_nil,
      or_false] at hx
    rcases hx with rfl | rfl <;> decide
  rw [if_neg h2] at hx
  by_cases h3 : c = '\n'
  · rw [if_pos h3] at hx
    simp only [List.mem_cons, List.mem_singleton, List.not_mem_nil,
      or_false] at hx
    rcases hx with rfl | rfl <;> decide
  rw [if_neg h3] at hx
  by_cases h4 : c = '\r'
  · rw [if_pos h4] at hx
    simp only [List.mem_cons, List.mem_singleton, List.not_mem_nil,
      or_false] at hx
    rcases hx with rfl | rfl <;> decide
  rw [if_neg h4] at hx
  by_cases h5 : c = '\t'
  · rw [if_pos h5] at hx
    simp only [List.mem_cons, List.mem_singleton, List.not_mem_nil,
      or_false] at hx
    rcases hx with rfl | rfl <;> decide
  rw [if_neg h5] at hx
  by_cases h6 : c = '<'
  · rw [if_pos h6] at hx
    simp only [List.mem_cons, List.mem_singleton, List.not_mem_nil,
      or_false] at hx
    rcases hx with rfl | rfl | rfl | rfl | rfl | rfl <;> decide
  rw [if_neg h6] at hx
  by_cases h7 : c = '>'
  · rw [if_pos h7] at hx
    simp only [List.mem_cons, List.mem_singleton, List.not_mem_nil,
      or_false] at hx
    rcases hx with rfl | rfl | rfl | rfl | rfl | rfl <;> decide
  rw [if_neg h7] at hx
  by_cases h8 : c = '&'
  · rw [if_pos h8] at hx
    simp only [List.mem_cons, List.mem_singleton, List.not_mem_nil,
      or_false] at hx
    rcases hx with rfl | rfl | rfl | rfl | rfl | rfl <;> decide
  rw [if_neg h8] at hx
  by_cases h9 : c.toNat < 32
  · rw [if_pos h9] at hx
    simp only [List.mem_cons, List.mem_singleton, List.not_mem_nil,
      or_false] at hx
    rcases hx with rfl | rfl | rfl | rfl | rfl | rfl
    · decide
    · decide
    · decide
    · decide
    · exact hexChar_ne_nl _
    · exact hexChar_ne_nl _
  rw [if_neg h9] at hx
  by_cases h10 : c.toNat = 8232
  · rw [if_pos h10] at hx
    simp only [List.mem_cons, List.mem_singleton, List.not_mem_nil,
      or_false] at hx
    rcases hx with rfl | rfl | rfl | rfl | rfl | rfl <;> decide
  rw [if_neg h10] at hx
  by_cases h11 : c.toNat = 8233
  · rw [if_pos h11] at hx
    simp only [List.mem_cons, List.mem_singleton, List.not_mem_nil,
      or_false] at hx
    rcases hx with rfl | rfl | rfl | rfl | rfl | rfl <;> decide
  rw [if_neg h11] at hx
  rw [List.mem_singleton] at hx
  subst hx
  exact h3

theorem jsonEscapeList_ne_nl : ∀ l, ∀ x ∈ jsonEscapeList l, x ≠ '\n' := by
  intro l
  induction l with
  | nil => intro x hx; simp [jsonEscapeList] at hx
  | cons c cs ih =>
    intro x hx
    simp only [jsonEscapeList] at hx
    rcases List.mem_append.1 hx with h | h
    · exact jsonEscapeChar_ne_nl c x h
    · exact ih x h

theorem jsonEscape_noNL (s : String) : NoNL (jsonEscape s) := fun c hc =>
  jsonEscapeList_ne_nl s.data c hc

theorem jsonStr_noNL (s : String) : NoNL (jsonStr s) :=
  noNL_append (noNL_append (by decide) (jsonEscape_noNL s)) (by decide)

theorem jsonBool_noNL (b : Bool) : NoNL (jsonBool b) := by
  cases b <;> decide

theorem marshalLogEntry_noNL (e : LogEntry) : NoNL (marshalLogEntry e) := by
  unfold marshalLogEntry
  split_ifs
  all_goals repeat' apply noNL_append
  all_goals
    first
      | exact jsonEscape_noNL _
      | exact jsonBool_noNL _
      | exact natDecimal_noNL _
      | decide

theorem ollamaStreamLoop_mid (rs : List String) (tail : List StreamItem) :
    ollamaStreamLoop (midObjs rs ++ tail) =
      (rs ++ (ollamaStreamLoop tail).1, (ollamaStreamLoop tail).2) := by
  induction rs with
  | nil => simp [midObjs]
  | cons r rs ih =>
    simp only [midObjs, List.map_cons, List.cons_append] at *
    simp [ollamaStreamLoop, ih]

theorem stubStreamGo_ok {σ E : Type} (write : σ → String → Except E σ)
    (h : ∀ s w, ∃ s2, write s w = Except.ok s2) :
    ∀ ws s0, ∃ sf, stubStreamGo write ws s0 = Except.ok sf := by
  intro ws
  induction ws with
  | nil => intro s0; exact ⟨s0, rfl⟩
  | cons w ws ih =>
    intro s0
    obtain ⟨s2, h2⟩ := h s0 (w ++ "\n")
    obtain ⟨sf, hf⟩ := ih s2
    refine ⟨sf, ?_⟩
    rw [stubStreamGo, h2]
    exact hf

theorem lsClose_llmType (s : LoggingService) (osErr : Option String) :
    ((lsClose s osErr).2).llmType = s.llmType := by
  unfold lsClose
  rcases hf : s.fileOpen with _ | b
  · simp [hf]
  · cases b
    · simp [hf]
    · cases osErr <;> simp [hf]

theorem lsReachable_inv {t : String} {s : LoggingService}
    (h : LSReachable t s) : s.llmType = t := by
  induction h with
  | init => rfl
  | closeStep osErr hs ih =>
    rw [lsClose_llmType]
    exact ih

/-- C1: the factory falls back to the stub for an invalid remote
configuration (empty endpoint or model) and for unsupported kinds, as the
claim states; but the claim is wrong that log records written afterwards
carry the stub kind: the record field llm_type is the string the logging
service was constructed with, which in main is the originally configured
kind. Concretely, with kind ollama and an empty endpoint the selected
backend is the stub, while the log entry for a successful stub-served call
still reports ollama, not stub. -/
theorem c1_counterexample :
    newGeneratorService "ollama" "" "somemodel" = Backend.stub ∧
    (logInteractionEntry (newLoggingService "ollama")
        ⟨"id", "ts", 0, "go", ⟨0, 0⟩⟩ "p"
        "This is a stubbed response to your prompt: p" false).llmType
      ≠ "stub" := by
  exact ⟨rfl, by decide⟩

/-- C1 amended: for every configuration with kind ollama and an empty
endpoint or an empty model, and for every unsupported kind, the factory
returns the stub backend; the llm_type field of every log record written
by a logging service constructed with that configured kind equals the
configured kind string, not the stub kind. -/
theorem c1_theorem :
    ∀ (t url model : String),
      ((t = "ollama" ∧ (url = "" ∨ model = "")) ∨
        (t ≠ "ollama" ∧ t ≠ "stub")) →
      newGeneratorService t url model = Backend.stub ∧
      ∀ (m : ReqMeta) (p r : String) (streaming : Bool),
        (logInteractionEntry (newLoggingService t) m p r streaming).llmType
          = t := by
  intro t url model h
  constructor
  · rcases h with ⟨ht, hu | hm⟩ | ⟨ht1, ht2⟩
    · subst ht
      simp [newGeneratorService, newLLM, hu]
    · subst ht
      by_cases hu0 : url = ""
      · simp [newGeneratorService, newLLM, hu0]
      · simp [newGeneratorService, newLLM, hu0, hm]
    · simp [newGeneratorService, newLLM, ht1, ht2]
  · intro m p r streaming
    rfl

/-- C1 witness: the amended statement evaluated at the configured kind
ollama with an empty endpoint. -/
theorem c1_witness :
    (("ollama" : String) = "ollama" ∧
      (("" : String) = "" ∨ ("somemodel" : String) = "")) ∧
    (newGeneratorService "ollama" "" "somemodel" = Backend.stub ∧
      ∀ (m : ReqMeta) (p r : String) (streaming : Bool),
        (logInteractionEntry (newLoggingService "ollama") m p r
          streaming).llmType = "ollama") :=
  ⟨⟨rfl, Or.inl rfl⟩,
   c1_theorem "ollama" "" "somemodel" (Or.inl ⟨rfl, Or.inl rfl⟩)⟩

/-- C2: the claim asks that every prompt that is empty after trimming be
rejected with 400 before any backend call; the handler only compares the
bound prompt against the empty string and never trims, so the
whitespace-only prompt consisting of one space, which is empty after
trimming, passes validation and the backend is invoked, for both the plain
and the streaming handler. -/
theorem c2_counterexample :
    trimSpace " " = "" ∧
    (handleGenerate (some " ") stubGenerate).2 = true ∧
    (handleGenerate (some " ") stubGenerate).1 =
      HandleOutcome.okResponse
        "This is a stubbed response to your prompt:  " ∧
    (handleGenerateStream (some " ")
        (fun p => (stubStreamEmitted (fun _ => false) p, none))).2.1
      = true := by
  exact ⟨by decide, by decide, by decide, by decide⟩

/-- C2 amended: the handlers reject a malformed body and a prompt that is
exactly the empty string with a 400 outcome before any backend is invoked,
and no backend call occurs for such a request; prompts that are merely
whitespace are not rejected. -/
theorem c2_theorem :
    ∀ (body : Option String) (backend : String → Except String String)
      (streamBackend : String → List String × Option String),
      (body = none ∨ body = some "") →
      handleGenerate body backend =
        (HandleOutcome.badRequest "Invalid request format", false) ∧
      handleGenerateStream body streamBackend =
        (HandleOutcome.badRequest "Invalid request format", false, "") := by
  intro body backend sb h
  rcases h with rfl | rfl <;> exact ⟨rfl, rfl⟩

/-- C2 witness: the amended statement evaluated at the empty prompt with
the stub backend. -/
theorem c2_witness :
    ((some "" : Option String) = none ∨ (some "" : Option String) = some "") ∧
    (handleGenerate (some "") stubGenerate =
        (HandleOutcome.badRequest "Invalid request format", false) ∧
      handleGenerateStream (some "")
          (fun p => (stubStreamEmitted (fun _ => false) p, none)) =
        (HandleOutcome.badRequest "Invalid request format", false, "")) :=
  ⟨Or.inr rfl,
   c2_theorem (some "") stubGenerate
     (fun p => (stubStreamEmitted (fun _ => false) p, none)) (Or.inr rfl)⟩

/-- C3: the claim states the stub stream checks the cancellation signal
between word emissions and stops once it is set; the source binds the
context to the blank identifier and never consults it, so with the signal
set before the first emission the stream still emits all ten words instead
of none. -/
theorem c3_counterexample :
    stubStreamEmitted (fun _ => true) "p" ≠ [] ∧
    stubStreamEmitted (fun _ => true) "p" =
      ["This\n", "is\n", "a\n", "stubbed\n", "streaming\n", "response\n",
       "to\n", "your\n", "prompt:\n", "p\n"] := by
  exact ⟨by decide, by decide⟩

/-- C3 amended: the stub stream ignores the caller-supplied cancellation
signal entirely: for every cancellation signal and every prompt it emits
exactly the full fixed word sequence, each word terminated by a
newline. -/
theorem c3_theorem :
    ∀ (ctx : Nat → Bool) (prompt : String),
      stubStreamEmitted ctx prompt =
        (stubWords prompt).map (fun w => w ++ "\n") := by
  intro ctx prompt
  rfl

/-- C4: the remote stream loop forwards each decoded response field in
decode order, stops after forwarding the first object with done true,
ignoring anything after it, stops at end-of-stream, and on a decode
failure aborts with the decode error while keeping every fragment already
forwarded; with a 200 status the streaming call runs exactly this loop. -/
theorem c4_theorem :
    ∀ (rs : List String) (r msg : String) (post : List StreamItem),
      ollamaStreamLoop (midObjs rs ++ StreamItem.obj r true :: post) =
        (rs ++ [r], none) ∧
      ollamaStreamLoop (midObjs rs ++ StreamItem.malformed msg :: post) =
        (rs, some ("failed to decode stream: " ++ msg)) ∧
      ollamaStreamLoop (midObjs rs) = (rs, none) ∧
      ollamaGenerateStream 200 (midObjs rs ++ StreamItem.obj r true :: post)
        = (rs ++ [r], none) := by
  intro rs r msg post
  have h1 := ollamaStreamLoop_mid rs (StreamItem.obj r true :: post)
  have h2 := ollamaStreamLoop_mid rs (StreamItem.malformed msg :: post)
  have h3 := ollamaStreamLoop_mid rs []
  refine ⟨?_, ?_, ?_, ?_⟩
  · rw [h1]
    simp [ollamaStreamLoop]
  · rw [h2]
    simp [ollamaStreamLoop]
  · simpa [ollamaStreamLoop] using h3
  · unfold ollamaGenerateStream
    rw [if_neg (by simp)]
    rw [h1]
    simp [ollamaStreamLoop]

/-- C5: when the model server answers with any status outside the 2xx
range, generate fails with an error message naming the status code, and
the streaming call fails with the same message having written nothing; the
rendered status code is a suffix of the message. -/
theorem c5_theorem :
    ∀ (status : Nat), ¬ (200 ≤ status ∧ status < 300) →
      ∀ (decoded : Except String (String × Bool)) (items : List StreamItem),
        ollamaGenerate status decoded =
          Except.error ("unexpected status code: " ++ natDecimal status) ∧
        ollamaGenerateStream status items =
          ([], some ("unexpected status code: " ++ natDecimal status)) ∧
        (natDecimal status).data <:+
          ("unexpected status code: " ++ natDecimal status).data := by
  intro status h decoded items
  have hne : status ≠ 200 := by
    intro h200
    exact h (by omega)
  refine ⟨?_, ?_, ?_⟩
  · unfold ollamaGenerate
    rw [if_pos hne]
  · unfold ollamaGenerateStream
    rw [if_pos hne]
  · exact ⟨("unexpected status code: " : String).data,
      (String.data_append _ _).symm⟩

/-- C5 witness: the statement evaluated at status 500 with an otherwise
well-formed body and an empty stream. -/
theorem c5_witness :
    (¬ (200 ≤ 500 ∧ 500 < 300)) ∧
    ollamaGenerate 500 (Except.ok ("x", true)) =
      Except.error ("unexpected status code: " ++ natDecimal 500) ∧
    ollamaGenerateStream 500 [] =
      ([], some ("unexpected status code: " ++ natDecimal 500)) ∧
    natDecimal 500 = "500" :=
  ⟨by omega,
   (c5_theorem 500 (by omega) (Except.ok ("x", true)) []).1,
   (c5_theorem 500 (by omega) (Except.ok ("x", true)) []).2.1,
   by decide⟩

theorem foldl_append_eq_join (l : List String) (s : String) :
    List.foldl (· ++ ·) s l = s ++ String.join l := by
  induction l generalizing s with
  | nil => simp [String.join]
  | cons a l ih =>
    show List.foldl (· ++ ·) (s ++ a) l = s ++ String.join (a :: l)
    rw [ih (s ++ a)]
    have hj : String.join (a :: l) = a ++ String.join l := by
      show List.foldl (· ++ ·) ("" ++ a) l = a ++ String.join l
      rw [ih ("" ++ a), String.empty_append]
    rw [hj, String.append_assoc]

theorem join_cons (a : String) (l : List String) :
    String.join (a :: l) = a ++ String.join l := by
  show List.foldl (· ++ ·) ("" ++ a) l = a ++ String.join l
  rw [foldl_append_eq_join l ("" ++ a), String.empty_append]

theorem chunkedRun_spec (frags : List String) (st : ChunkedState) :
    frags.foldl (fun st p => (chunkedWrite st p).1) st =
      ⟨st.out ++ String.join (frags.map encodeTokenLine),
       st.observed ++ String.join frags⟩ := by
  induction frags generalizing st with
  | nil => simp [String.join]
  | cons f fs ih =>
    simp only [List.foldl_cons, List.map_cons]
    rw [ih]
    simp only [chunkedWrite]
    rw [join_cons, join_cons f fs]
    simp [String.append_assoc]

/-- C6: every sequence of fragments written through the chunked writer
produces, per fragment, exactly one newline-terminated line holding the
marshalled token object, the observation callback accumulates exactly the
concatenation of the raw fragments, and on the concrete fragments a, bc, d
the output is three lines decoding back to the fragments with observed
text abcd. -/
theorem c6_theorem :
    ∀ (frags : List String),
      (chunkedRun frags).observed = String.join frags ∧
      (chunkedRun frags).out = String.join (frags.map encodeTokenLine) ∧
      (∀ f : String, ∃ body : String,
        encodeTokenLine f = body ++ "\n" ∧ NoNL body) ∧
      (chunkedRun ["a", "bc", "d"]).out =
        "\x7b\"token\":\"a\"\x7d\n\x7b\"token\":\"bc\"\x7d\n\x7b\"token\":\"d\"\x7d\n" ∧
      (chunkedRun ["a", "bc", "d"]).observed = "abcd" ∧
      (chunkedRun ["a", "bc", "d"]).out.data.count '\n' = 3 ∧
      decodeTokenLine "\x7b\"token\":\"a\"\x7d" = some "a" ∧
      decodeTokenLine "\x7b\"token\":\"bc\"\x7d" = some "bc" ∧
      decodeTokenLine "\x7b\"token\":\"d\"\x7d" = some "d" := by
  intro frags
  have hs := chunkedRun_spec frags ⟨"", ""⟩
  refine ⟨?_, ?_, ?_, by decide, by decide, by decide, by decide, by decide,
    by decide⟩
  · rw [show chunkedRun frags =
      List.foldl (fun st p => (chunkedWrite st p).1) ⟨"", ""⟩ frags from rfl,
      hs]
    exact String.empty_append _
  · rw [show chunkedRun frags =
      List.foldl (fun st p => (chunkedWrite st p).1) ⟨"", ""⟩ frags from rfl,
      hs]
    exact String.empty_append _
  · intro f
    refine ⟨tokenLinePre ++ jsonEscape f ++ "\"\x7d", ?_, ?_⟩
    · rw [String.append_assoc, String.append_assoc]
      rfl
    · exact noNL_append (noNL_append (by decide) (jsonEscape_noNL f))
        (by decide)

/-- C7: for every prompt the stub stream never fails when every sink write
succeeds, emits one fragment per word of the fixed template with the
prompt embedded as the final word, each fragment being the word followed
by a newline, the fragment count is the ten-word count of the template,
and the concatenation of the words without the newline delimiters contains
the prompt as a contiguous substring. -/
theorem c7_theorem :
    ∀ (prompt : String) (ctx : Nat → Bool) (σ E : Type)
      (write : σ → String → Except E σ) (s0 : σ),
      (∀ s w, ∃ s2, write s w = Except.ok s2) →
      (∃ sf, stubGenerateStream ctx prompt write s0 = Except.ok sf) ∧
      stubStreamEmitted ctx prompt =
        (stubWords prompt).map (fun w => w ++ "\n") ∧
      (stubStreamEmitted ctx prompt).length = (stubWords prompt).length ∧
      (stubWords prompt).length = 10 ∧
      prompt.data <:+: (String.join (stubWords prompt)).data := by
  intro prompt ctx σ E write s0 h
  refine ⟨stubStreamGo_ok write h (stubWords prompt) s0, rfl, ?_, rfl, ?_⟩
  · rw [show stubStreamEmitted ctx prompt =
      (stubWords prompt).map (fun w => w ++ "\n") from rfl]
    exact List.length_map _ _
  · have hj : String.join (stubWords prompt) =
        "Thisisastubbedstreamingresponsetoyourprompt:" ++ prompt := rfl
    refine ⟨("Thisisastubbedstreamingresponsetoyourprompt:" : String).data,
      [], ?_⟩
    rw [hj, String.data_append]
    simp

/-- C7 witness: the statement evaluated at the prompt p with the buffering
sink, whose writes always succeed. -/
theorem c7_witness :
    (∀ (s : List String) (w : String), ∃ s2,
      bufferWrite s w = Except.ok s2) ∧
    ((∃ sf, stubGenerateStream (fun _ => false) "p" bufferWrite
        ([] : List String) = Except.ok sf) ∧
      stubStreamEmitted (fun _ => false) "p" =
        (stubWords "p").map (fun w => w ++ "\n") ∧
      (stubStreamEmitted (fun _ => false) "p").length =
        (stubWords "p").length ∧
      (stubWords "p").length = 10 ∧
      ("p" : String).data <:+: (String.join (stubWords "p")).data) :=
  ⟨fun s w => ⟨s ++ [w], rfl⟩,
   c7_theorem "p" (fun _ => false) (List String) Unit bufferWrite []
     (fun s w => ⟨s ++ [w], rfl⟩)⟩

/-- C8: LogError appends exactly one newline-terminated line, the
marshalled record, and that record has success false, the error message of
the failure, an empty response, the original prompt, and zero token count
and response size. -/
theorem c8_theorem :
    ∀ (s : LoggingService) (m : ReqMeta) (p errMsg : String)
      (streaming : Bool) (file : String),
      logErrorRun file s m p errMsg streaming =
        file ++
          (marshalLogEntry (logErrorEntry s m p errMsg streaming) ++ "\n") ∧
      NoNL (marshalLogEntry (logErrorEntry s m p errMsg streaming)) ∧
      (logErrorEntry s m p errMsg streaming).success = false ∧
      (logErrorEntry s m p errMsg streaming).errorMessage = errMsg ∧
      (logErrorEntry s m p errMsg streaming).response = "" ∧
      (logErrorEntry s m p errMsg streaming).prompt = p ∧
      (logErrorEntry s m p errMsg streaming).tokenCount = 0 ∧
      (logErrorEntry s m p errMsg streaming).responseSize = 0 := by
  intro s m p errMsg streaming file
  refine ⟨?_, marshalLogEntry_noNL _, rfl, rfl, rfl, rfl, rfl, rfl⟩
  unfold logErrorRun
  rw [String.append_assoc]

/-- C9: the claim that after any first Close every subsequent Close
returns no error fails on the error path of the file close: when the
operating-system close of the open descriptor reports an error, the
handle is not cleared, and the next Close call reaches the already-closed
descriptor and returns the double-close error. The failing state is
reachable from a fresh service by that one failed Close call. -/
theorem c9_counterexample :
    LSReachable "ollama"
      ((lsClose (newLoggingService "ollama") (some "input/output error")).2) ∧
    (lsClose (newLoggingService "ollama") (some "input/output error")).1 =
      Except.error "input/output error" ∧
    (lsClose ((lsClose (newLoggingService "ollama")
        (some "input/output error")).2) none).1 =
      Except.error "file already closed" ∧
    (lsClose ((lsClose (newLoggingService "ollama")
        (some "input/output error")).2) none).1 ≠ Except.ok () := by
  exact ⟨LSReachable.closeStep (some "input/output error") LSReachable.init,
    rfl, rfl, fun hcon => Except.noConfusion hcon⟩

/-- C9 amended: a Close call that returns no error is final: every
subsequent Close call, whatever the outcome the operating system would
report, returns no error and leaves the service unchanged, so a second
close after a successful one is a no-op rather than a double-close
failure. When the first close reports an error the handle is retained and
later Close calls fail with the double-close error. -/
theorem c9_theorem :
    ∀ (s : LoggingService) (osErr : Option String),
      (lsClose s osErr).1 = Except.ok () →
      ∀ (osErr2 : Option String),
        (lsClose ((lsClose s osErr).2) osErr2).1 = Except.ok () ∧
        (lsClose ((lsClose s osErr).2) osErr2).2 = (lsClose s osErr).2 := by
  intro s osErr h osErr2
  rcases hf : s.fileOpen with _ | b
  · have h2 : (lsClose s osErr).2 = s := by simp [lsClose, hf]
    rw [h2]
    simp [lsClose, hf]
  · cases b
    · exfalso
      simp [lsClose, hf] at h
    · cases osErr with
      | none =>
        have h2 : (lsClose s none).2 = { s with fileOpen := none } := by
          simp [lsClose, hf]
        rw [h2]
        simp [lsClose]
      | some e =>
        exfalso
        simp [lsClose, hf] at h

/-- C9 witness: the amended statement evaluated at a freshly constructed
logging service whose first close succeeds, followed by a second close
under a failing operating-system outcome, which is still a no-op. -/
theorem c9_witness :
    (lsClose (newLoggingService "ollama") none).1 = Except.ok () ∧
    ((lsClose ((lsClose (newLoggingService "ollama") none).2)
        (some "disk error")).1 = Except.ok () ∧
      (lsClose ((lsClose (newLoggingService "ollama") none).2)
        (some "disk error")).2 = (lsClose (newLoggingService "ollama") none).2) :=
  ⟨rfl, c9_theorem (newLoggingService "ollama") none rfl (some "disk error")⟩

/-- C10: every record built by a logging service reachable from
construction with kind t carries llm_type t, for success and failure
records alike, independent of the backend in use; in particular with the
configured kind ollama and an empty endpoint the factory serves the stub
while records still report ollama, which differs from stub. -/
theorem c10_theorem :
    ∀ (t : String) (s : LoggingService), LSReachable t s →
      ∀ (m : ReqMeta) (p r errMsg : String) (streaming : Bool),
        (logInteractionEntry s m p r streaming).llmType = t ∧
        (logErrorEntry s m p errMsg streaming).llmType = t ∧
        newGeneratorService "ollama" "" "somemodel" = Backend.stub ∧
        (logInteractionEntry (newLoggingService "ollama") m p r
          streaming).llmType = "ollama" ∧
        ("ollama" : String) ≠ "stub" := by
  intro t s h m p r errMsg streaming
  have h2 := lsReachable_inv h
  refine ⟨?_, ?_, rfl, rfl, by decide⟩
  · show s.llmType = t
    exact h2
  · show s.llmType = t
    exact h2

/-- C10 witness: the statement evaluated at a freshly constructed logging
service with kind ollama. -/
theorem c10_witness :
    (logInteractionEntry (newLoggingService "ollama")
        ⟨"id", "ts", 0, "go", ⟨0, 0⟩⟩ "p" "r" false).llmType = "ollama" ∧
    (logErrorEntry (newLoggingService "ollama")
        ⟨"id", "ts", 0, "go", ⟨0, 0⟩⟩ "p" "e" false).llmType = "ollama" ∧
    newGeneratorService "ollama" "" "somemodel" = Backend.stub ∧
    (logInteractionEntry (newLoggingService "ollama")
        ⟨"id", "ts", 0, "go", ⟨0, 0⟩⟩ "p" "r" false).llmType = "ollama" ∧
    ("ollama" : String) ≠ "stub" :=
  c10_theorem "ollama" (newLoggingService "ollama") LSReachable.init
    ⟨"id", "ts", 0, "go", ⟨0, 0⟩⟩ "p" "r" "e" false
